import Mathlib

/-!
Verification development for the meta-controller core of the
autonomous-trading-ecosystem repository.

The configuration module (src/configsettings.py) and the head of the
meta-controller module (src/coremeta_controller.py, which truncates after
its two enum declarations) are embedded directly from the source.
The Component Registry transition logic, the Evolution Engine selection
step and the Capital Allocator water-filling rebalance are not present
under src/; they are modelled from the specification text and each such
definition is marked `Modelled from the spec:` in its doc comment.

Numeric fields use ℚ (the Python floats carry only spec-level range and
arithmetic facts here, no rounding claims are made).
-/

namespace TradingEcosystem

/-! Section: configuration module (src/configsettings.py) -/

/-- Trading-specific configuration, class TradingConfig
(src/configsettings.py lines 34-40).  The source declares the four numeric
fields with defaults and env bindings and no range validators. -/
structure TradingConfig where
  initial_capital : ℚ
  max_drawdown_limit : ℚ
  max_position_size : ℚ
  risk_free_rate : ℚ
  deriving DecidableEq

/-- Evolution-parameter and container settings, class Settings
(src/configsettings.py lines 49-77), restricted to the numeric options the
spec lists as recognized.  No range validators are declared in the source. -/
structure Settings where
  trading : TradingConfig
  generation_interval_minutes : ℤ
  evaluation_period_days : ℤ
  survival_rate : ℚ
  deriving DecidableEq

/-- Error raised when settings construction is rejected (the spec's
ConfigValidationFailure). -/
inductive ConfigError where
  | validationFailure
  deriving DecidableEq

/-- Construction of TradingConfig as the source performs it: pydantic parses
the field values and, with no validator declared on any numeric field,
accepts every numeric assignment. -/
def mkTradingConfig (cap dd pos rfr : ℚ) : Except ConfigError TradingConfig :=
  .ok { initial_capital := cap, max_drawdown_limit := dd,
        max_position_size := pos, risk_free_rate := rfr }

/-- Construction of Settings as the source performs it: the nested
TradingConfig is built first, then the evolution parameters are assigned;
no range check is performed anywhere. -/
def mkSettings (cap dd pos rfr : ℚ) (gim epd : ℤ) (sr : ℚ) :
    Except ConfigError Settings :=
  match mkTradingConfig cap dd pos rfr with
  | .error e => .error e
  | .ok t => .ok { trading := t, generation_interval_minutes := gim,
                   evaluation_period_days := epd, survival_rate := sr }

/-- Numeric-range validity as the spec states it: rates in [0,1] and
initial capital strictly positive (spec section 6).  Written from the
spec's words, to be compared with what construction actually enforces. -/
def rangesValid (s : Settings) : Bool :=
  (0 < s.trading.initial_capital)
    && (0 ≤ s.trading.max_drawdown_limit && s.trading.max_drawdown_limit ≤ 1)
    && (0 ≤ s.trading.max_position_size && s.trading.max_position_size ≤ 1)
    && (0 ≤ s.survival_rate && s.survival_rate ≤ 1)

/-- Default field values of the source classes (src/configsettings.py:
initial_capital 100000.0, max_drawdown_limit 0.2, max_position_size 0.1,
risk_free_rate 0.02, generation_interval_minutes 60, evaluation_period_days
30, survival_rate 0.2). -/
def defaultSettings : Settings :=
  { trading := { initial_capital := 100000, max_drawdown_limit := 1/5,
                 max_position_size := 1/10, risk_free_rate := 1/50 },
    generation_interval_minutes := 60, evaluation_period_days := 30,
    survival_rate := 1/5 }

/-- Import-time state of the configuration module: the top-level names it
binds and the module-level Settings instance it creates. -/
structure ConfigModuleState where
  bindings : List String
  globalSettings : Option Settings
  deriving DecidableEq

/-- Import-time effect of evaluating src/configsettings.py: the module
binds its classes and helpers at top level and line 80 executes
`settings = Settings()`, creating and exporting a module-level global
Settings instance built from the field defaults. -/
def evalConfigModule : ConfigModuleState :=
  { bindings := ["Environment", "FirebaseConfig", "TradingConfig",
                 "LoggingConfig", "Settings", "settings",
                 "validate_directories"],
    globalSettings := some defaultSettings }

/-- Names the meta-controller module imports from the configuration module
(src/coremeta_controller.py line 13: `from config.settings import settings`). -/
def controllerConfigImports : List String := ["settings"]

/-! Section: FirebaseConfig.format_private_key (src/configsettings.py
lines 27-32).  Strings are embedded as lists of characters. -/

/-- Test whether the string contains the two-character escape sequence
backslash-n (the Python expression on line 30). -/
def containsEscape : List Char → Bool
  | [] => false
  | [_] => false
  | a :: b :: rest => (a = '\\' && b = 'n') || containsEscape (b :: rest)

/-- Left-to-right non-overlapping replacement of every two-character
backslash-n escape by a newline character (line 31, Python str.replace). -/
def replaceEscapes : List Char → List Char
  | [] => []
  | [c] => [c]
  | a :: b :: rest =>
    if a = '\\' && b = 'n' then '\n' :: replaceEscapes rest
    else a :: replaceEscapes (b :: rest)

/-- Validator FirebaseConfig.format_private_key: when the value contains a
backslash-n escape it is replaced throughout by newlines, otherwise the
value is returned unchanged. -/
def format_private_key (v : List Char) : List Char :=
  if containsEscape v then replaceEscapes v else v

/-! Section: component enums (src/coremeta_controller.py lines 19-34). -/

/-- Status of ecosystem components, enum ComponentStatus
(src/coremeta_controller.py lines 19-26): a closed type with exactly the
six variants of the source enum. -/
inductive ComponentStatus where
  | INITIALIZING
  | ACTIVE
  | PAUSED
  | FAILED
  | TERMINATED
  | EVOLVING
  deriving DecidableEq, Fintype

/-- String value each status variant carries in the source enum. -/
def ComponentStatus.value : ComponentStatus → String
  | .INITIALIZING => "initializing"
  | .ACTIVE => "active"
  | .PAUSED => "paused"
  | .FAILED => "failed"
  | .TERMINATED => "terminated"
  | .EVOLVING => "evolving"

/-- Types of components in the ecosystem, enum ComponentType
(src/coremeta_controller.py lines 28-34): a closed type with exactly the
five variants of the source enum. -/
inductive ComponentType where
  | GENERATOR
  | EVALUATOR
  | DEPLOYER
  | RISK_MANAGER
  | DATA_FEEDER
  deriving DecidableEq, Fintype

/-- String value each kind variant carries in the source enum. -/
def ComponentType.value : ComponentType → String
  | .GENERATOR => "strategy_generator"
  | .EVALUATOR => "strategy_evaluator"
  | .DEPLOYER => "strategy_deployer"
  | .RISK_MANAGER => "risk_manager"
  | .DATA_FEEDER => "data_feeder"

/-! Section: Component Registry (spec section 4.1; the registry
implementation is absent from src/, only the status enum survives the
truncation of src/coremeta_controller.py). -/

/-- Registry state: component identifiers associated with their status. -/
abbrev Registry := List (Nat × ComponentStatus)

/-- Status currently recorded for a component id. -/
def statusOf (reg : Registry) (id : Nat) : Option ComponentStatus :=
  reg.lookup id

/-- Modelled from the spec: the section 4.1 state machine —
INITIALIZING → ACTIVE, then from ACTIVE the component may move to PAUSED
(and back), to EVOLVING (then back to ACTIVE or on to TERMINATED), or to
FAILED (then TERMINATED); TERMINATED is absorbing.  The transition
implementation itself is missing from src/. -/
def allowedTransition : ComponentStatus → ComponentStatus → Bool
  | .INITIALIZING, .ACTIVE => true
  | .ACTIVE, .PAUSED => true
  | .PAUSED, .ACTIVE => true
  | .ACTIVE, .EVOLVING => true
  | .EVOLVING, .ACTIVE => true
  | .EVOLVING, .TERMINATED => true
  | .ACTIVE, .FAILED => true
  | .FAILED, .TERMINATED => true
  | _, _ => false

/-- Registry-level errors: the spec's InvalidTransition, plus a distinct
error for an unknown component id. -/
inductive RegistryError where
  | invalidTransition
  | unknownComponent
  deriving DecidableEq

/-- Modelled from the spec: transition(id, new_status) fails with
InvalidTransition when the requested status is unreachable from the
current one, otherwise updates the component's status. -/
def transition (reg : Registry) (id : Nat) (tgt : ComponentStatus) :
    Except RegistryError Registry :=
  match statusOf reg id with
  | none => .error .unknownComponent
  | some s =>
    if allowedTransition s tgt then
      .ok (reg.map (fun p => if p.1 = id then (p.1, tgt) else p))
    else
      .error .invalidTransition

/-- Registry state after a transition request: a failed request changes
nothing. -/
def applyTransition (reg : Registry) (id : Nat) (tgt : ComponentStatus) :
    Registry :=
  match transition reg id tgt with
  | .ok r => r
  | .error _ => reg

/-! Section: Evolution Engine selection (spec section 4.3; absent from
src/). -/

/-- Per-component ranking inputs at a generation boundary: identifier,
risk-adjusted score and realized return over the completed window. -/
structure EvalComp where
  cid : Nat
  score : ℚ
  realizedReturn : ℚ
  deriving DecidableEq

/-- Ranking order: by risk-adjusted score (primary) with realized-return
tie-break (secondary), descending. -/
def rankBefore (a b : EvalComp) : Prop :=
  b.score < a.score ∨ (a.score = b.score ∧ b.realizedReturn ≤ a.realizedReturn)

instance : DecidableRel rankBefore := fun a b => by
  unfold rankBefore; infer_instance

/-- Modelled from the spec: rank components by risk-adjusted score with
realized-return tie-break, descending. -/
def rankComps (l : List EvalComp) : List EvalComp :=
  l.insertionSort rankBefore

/-- Modelled from the spec: number of survivors retained from k ranked
components — the top fraction survival_rate rounded up, minimum 1. -/
def numSurvivors (rate : ℚ) (k : Nat) : Nat :=
  max 1 (⌈rate * k⌉).toNat

/-- Replacement request issued for a terminated slot: a generator
component seeded with the next generation number. -/
structure Replacement where
  kind : ComponentType
  generation : Nat
  deriving DecidableEq

/-- Modelled from the spec: the generation-boundary selection step.
With fewer than 2 completed components the cycle is skipped (insufficient
sample, population unchanged, nothing culled); otherwise the ranked top
fraction survives, the remainder is culled, and each culled slot yields a
replacement generator seeded with generation + 1. -/
def selectStep (rate : ℚ) (gen : Nat) (comps : List EvalComp) :
    List EvalComp × List EvalComp × List Replacement :=
  if comps.length < 2 then (comps, [], [])
  else
    let ranked := rankComps comps
    let s := numSurvivors rate comps.length
    (ranked.take s, ranked.drop s,
     (ranked.drop s).map (fun _ => ⟨ComponentType.GENERATOR, gen + 1⟩))

/-! Section: Capital Allocator (spec section 4.4; absent from src/). -/

/-- Active component as seen by the allocator: identifier and historical
maximum drawdown over the window. -/
structure ActiveComponent where
  cid : Nat
  maxDrawdown : ℚ
  deriving DecidableEq

/-- Modelled from the spec: one cap-and-redistribute pass of the
water-filling loop.  Every weight above max_position_size is capped at it;
the freed capital (the excess) is redistributed proportionally among the
components strictly below the cap.  When no component can absorb the
excess (none strictly below the cap, or all of them at weight zero) the
over-weights are simply capped and the excess stays unallocated. -/
def capPass (cap : ℚ) (ws : List ℚ) : List ℚ :=
  let over := ws.filter (fun w => cap < w)
  if over.isEmpty then ws
  else
    let excess := (over.map (fun w => w - cap)).sum
    let under := ws.filter (fun w => w < cap)
    let u := under.sum
    if under.isEmpty || u == 0 then
      ws.map (fun w => if cap < w then cap else w)
    else
      ws.map (fun w =>
        if cap < w then cap
        else if w < cap then w + excess * w / u
        else w)

/-- Modelled from the spec: the iterative water-filling loop, run for at
most `fuel` passes (the allocator uses fuel = number of components, the
spec's at-most-N-passes bound) and stopping early at a fixed point. -/
def waterFill (cap : ℚ) : Nat → List ℚ → List ℚ
  | 0, ws => ws
  | fuel + 1, ws =>
    if (ws.filter (fun w => cap < w)).isEmpty then ws
    else waterFill cap fuel (capPass cap ws)

/-- Modelled from the spec: the capped weight profile for n active
components — equal-weight base allocation followed by the water-filling
loop with the spec's n-pass budget. -/
def rebalanceWeights (cap : ℚ) (n : Nat) : List ℚ :=
  waterFill cap n (List.replicate n ((n : ℚ)⁻¹))

/-- Modelled from the spec: post-rebalance aggregate drawdown exposure —
the sum of per-component historical max drawdown weighted by allotment. -/
def exposureOf (comps : List ActiveComponent) (ws : List ℚ) : ℚ :=
  ((comps.zip ws).map (fun p => p.1.maxDrawdown * p.2)).sum

/-- Modelled from the spec: when the aggregate drawdown exposure exceeds
max_drawdown_limit, all allotments are scaled down uniformly until
compliant (one multiplicative rescale to the limit). -/
def drawdownScale (ddLimit exposure : ℚ) (ws : List ℚ) : List ℚ :=
  if ddLimit < exposure then ws.map (fun w => w * (ddLimit / exposure)) else ws

/-- Modelled from the spec: rebalance(active_components, total_capital) —
equal-weight base, water-filling against max_position_size, drawdown
rescaling, and the resulting Allocation Record mapping each active
component identifier to its allotted fraction of total capital. -/
def rebalance (cfg : TradingConfig) (comps : List ActiveComponent)
    (capital : ℚ) : List (Nat × ℚ) :=
  let ws := rebalanceWeights cfg.max_position_size comps.length
  (comps.map (fun c => c.cid)).zip
    (drawdownScale cfg.max_drawdown_limit (exposureOf comps ws) ws)

/-- Currency amount allotted to one record entry. -/
def allottedAmount (capital : ℚ) (entry : Nat × ℚ) : ℚ :=
  entry.2 * capital

/-- State owned by the Capital Allocator: the last committed Allocation
Record. -/
structure AllocatorState where
  current : List (Nat × ℚ)
  deriving DecidableEq

/-- Modelled from the spec: a rebalance call recomputes the Allocation
Record from the active set and total capital and commits it as the
allocator's current record. -/
def rebalanceStep (cfg : TradingConfig) (st : AllocatorState)
    (comps : List ActiveComponent) (capital : ℚ) :
    AllocatorState × List (Nat × ℚ) :=
  let r := rebalance cfg comps capital
  ({ current := r }, r)

/-! Section: supporting lemmas. -/

/-- A cap pass leaves an equal-weight profile untouched when the common
weight is within the cap. -/
theorem capPass_replicate_le (cap c : ℚ) (n : Nat) (h : c ≤ cap) :
    capPass cap (List.replicate n c) = List.replicate n c := by
  have hnc : ¬ (cap < c) := not_lt.mpr h
  unfold capPass
  simp [List.filter_replicate, hnc]

/-- A cap pass on an equal-weight profile above the cap caps every
component (no component is strictly below the cap, so the freed capital
has nowhere to go). -/
theorem capPass_replicate_gt (cap c : ℚ) (n : Nat) (h : cap < c) :
    capPass cap (List.replicate n c) = List.replicate n cap := by
  cases n with
  | zero => simp [capPass]
  | succ m =>
    have hnc : ¬ (c < cap) := not_lt.mpr h.le
    unfold capPass
    simp [List.filter_replicate, h, hnc, List.map_replicate]

/-- The water-filling loop stops at once on a profile with nothing above
the cap, whatever fuel remains. -/
theorem waterFill_fixed (cap : ℚ) (fuel : Nat) (ws : List ℚ)
    (h : ws.filter (fun w => cap < w) = []) : waterFill cap fuel ws = ws := by
  cases fuel with
  | zero => rfl
  | succ m => unfold waterFill; simp [h]

/-- Water-filling the equal-weight base profile yields the common weight
capped at max_position_size, for every population size. -/
theorem waterFill_replicate (cap : ℚ) (n : Nat) :
    waterFill cap n (List.replicate n ((n : ℚ)⁻¹))
      = List.replicate n (min ((n : ℚ)⁻¹) cap) := by
  cases n with
  | zero => simp [waterFill]
  | succ m =>
    set c : ℚ := ((m + 1 : Nat) : ℚ)⁻¹ with hc
    by_cases hover : cap < c
    · have h1 : capPass cap (List.replicate (m + 1) c) = List.replicate (m + 1) cap :=
        capPass_replicate_gt cap c (m + 1) hover
      have h2 : (List.replicate (m + 1) cap).filter (fun w => cap < w) = [] := by
        simp [List.filter_replicate]
      have hfil : (List.replicate (m + 1) c).filter (fun w => cap < w)
          = List.replicate (m + 1) c := by
        simp [List.filter_replicate, hover]
      unfold waterFill
      rw [hfil, if_neg (by simp), h1, waterFill_fixed cap m _ h2,
          min_eq_right hover.le]
    · have h2 : (List.replicate (m + 1) c).filter (fun w => cap < w) = [] := by
        simp [List.filter_replicate, hover]
      rw [waterFill_fixed cap (m + 1) _ h2, min_eq_left (not_lt.mp hover)]

/-- The capped weight profile, in closed form. -/
theorem rebalanceWeights_eq (cap : ℚ) (n : Nat) :
    rebalanceWeights cap n = List.replicate n (min ((n : ℚ)⁻¹) cap) :=
  waterFill_replicate cap n

/-- Drawdown rescaling of an equal-weight profile, in closed form. -/
theorem drawdownScale_replicate (d e v : ℚ) (n : Nat) :
    drawdownScale d e (List.replicate n v)
      = List.replicate n (if d < e then v * (d / e) else v) := by
  unfold drawdownScale
  split <;> simp_all [List.map_replicate]

/-- The record produced by rebalance pairs the component identifiers with
one common fraction: the capped equal weight, drawdown-rescaled if the
exposure check fires. -/
theorem rebalance_eq_zip_replicate (cfg : TradingConfig)
    (comps : List ActiveComponent) (capital : ℚ) :
    rebalance cfg comps capital
      = (comps.map (fun c => c.cid)).zip
          (List.replicate comps.length
            (let v := min ((comps.length : ℚ)⁻¹) cfg.max_position_size
             let e := exposureOf comps
                        (List.replicate comps.length v)
             if cfg.max_drawdown_limit < e then
               v * (cfg.max_drawdown_limit / e)
             else v)) := by
  unfold rebalance
  simp only [rebalanceWeights_eq, drawdownScale_replicate]

/-- Every fraction in a rebalance record equals the common fraction of the
closed form. -/
theorem rebalance_snd_mem (cfg : TradingConfig)
    (comps : List ActiveComponent) (capital : ℚ) (p : Nat × ℚ)
    (hp : p ∈ rebalance cfg comps capital) :
    p.2 = (let v := min ((comps.length : ℚ)⁻¹) cfg.max_position_size
           let e := exposureOf comps (List.replicate comps.length v)
           if cfg.max_drawdown_limit < e then
             v * (cfg.max_drawdown_limit / e)
           else v) := by
  rw [rebalance_eq_zip_replicate] at hp
  have h2 := (List.of_mem_zip hp).2
  exact List.eq_of_mem_replicate h2

/-- Scalar facts about the common rebalance fraction: it is bounded by the
position cap, nonnegative, and sums below one over the population. -/
theorem rebalance_fraction_bounds (cap dd ex : ℚ) (n : Nat)
    (hcap : 0 ≤ cap) (hdd : 0 ≤ dd) :
    (if dd < ex then min ((n : ℚ)⁻¹) cap * (dd / ex)
     else min ((n : ℚ)⁻¹) cap) ≤ cap
  ∧ 0 ≤ (if dd < ex then min ((n : ℚ)⁻¹) cap * (dd / ex)
         else min ((n : ℚ)⁻¹) cap)
  ∧ (n : ℚ) * (if dd < ex then min ((n : ℚ)⁻¹) cap * (dd / ex)
               else min ((n : ℚ)⁻¹) cap) ≤ 1 := by
  set v : ℚ := min ((n : ℚ)⁻¹) cap with hv
  have hv0 : 0 ≤ v := le_min (inv_nonneg.mpr (Nat.cast_nonneg n)) hcap
  have hvcap : v ≤ cap := min_le_right _ _
  have hvinv : v ≤ (n : ℚ)⁻¹ := min_le_left _ _
  have hnv : (n : ℚ) * v ≤ 1 := by
    rcases eq_or_ne (n : ℚ) 0 with h0 | h0
    · rw [h0]; norm_num
    · calc (n : ℚ) * v ≤ (n : ℚ) * (n : ℚ)⁻¹ :=
            mul_le_mul_of_nonneg_left hvinv (Nat.cast_nonneg n)
        _ = 1 := mul_inv_cancel₀ h0
  split
  · rename_i hex
    have hexpos : 0 < ex := lt_of_le_of_lt hdd hex
    have hf0 : 0 ≤ dd / ex := div_nonneg hdd hexpos.le
    have hf1 : dd / ex ≤ 1 := (div_le_one hexpos).mpr hex.le
    refine ⟨?_, mul_nonneg hv0 hf0, ?_⟩
    · calc v * (dd / ex) ≤ v * 1 := mul_le_mul_of_nonneg_left hf1 hv0
        _ = v := mul_one v
        _ ≤ cap := hvcap
    · calc (n : ℚ) * (v * (dd / ex)) = ((n : ℚ) * v) * (dd / ex) := by ring
        _ ≤ 1 * (dd / ex) := mul_le_mul_of_nonneg_right hnv hf0
        _ = dd / ex := one_mul _
        _ ≤ 1 := hf1
  · exact ⟨hvcap, hv0, hnv⟩

/-- Appending a character other than a backslash to an escape-free string
keeps it escape-free. -/
theorem containsEscape_cons_of_ne (c : Char) (l : List Char)
    (hc : c ≠ '\\') (hl : containsEscape l = false) :
    containsEscape (c :: l) = false := by
  cases l with
  | nil => rfl
  | cons x r => simp [containsEscape, hc, hl]

/-- Appending any character to an escape-free string not starting with the
letter n keeps it escape-free. -/
theorem containsEscape_cons_of_head_ne (c : Char) (l : List Char)
    (hl : containsEscape l = false) (hhead : l.head? ≠ some 'n') :
    containsEscape (c :: l) = false := by
  cases l with
  | nil => rfl
  | cons x r =>
    have hx : x ≠ 'n' := by
      intro h
      exact hhead (by simp [h])
    simp [containsEscape, hx, hl]

/-- The replacement pass never leaves the letter n at the head of its
output when the head of its input is not the letter n. -/
theorem head_replaceEscapes_ne (b : Char) (rest : List Char) (hb : b ≠ 'n') :
    (replaceEscapes (b :: rest)).head? ≠ some 'n' := by
  cases rest with
  | nil => simp [replaceEscapes, hb]
  | cons d r2 =>
    unfold replaceEscapes
    split
    · intro h
      simp at h
    · simp [hb]

/-- The replacement pass removes every backslash-n escape: its output is
escape-free. -/
theorem containsEscape_replaceEscapes (v : List Char) :
    containsEscape (replaceEscapes v) = false := by
  induction v using replaceEscapes.induct with
  | case1 => rfl
  | case2 c => rfl
  | case3 a b rest hab ih =>
    rw [replaceEscapes, if_pos hab]
    exact containsEscape_cons_of_ne '\n' _ (by decide) ih
  | case4 a b rest hab ih =>
    rw [replaceEscapes, if_neg hab]
    by_cases ha : a = '\\'
    · have hb : b ≠ 'n' := by
        intro hbn
        exact hab (by simp [ha, hbn])
      exact containsEscape_cons_of_head_ne a _ ih (head_replaceEscapes_ne b rest hb)
    · exact containsEscape_cons_of_ne a _ ha ih

/-- From any TERMINATED state every requested transition is disallowed. -/
theorem terminated_no_exit (tgt : ComponentStatus) :
    allowedTransition .TERMINATED tgt = false := by
  cases tgt <;> rfl

/-! Section: claims C1, C9. -/

/-- C1 counterexample: a settings assignment violating every spec range
(initial_capital = -1, rates = 2) on which construction nevertheless
succeeds — the source declares no range validator, so the process starts. -/
theorem claim1_counterexample :
    rangesValid { trading := { initial_capital := -1, max_drawdown_limit := 2,
                               max_position_size := 2, risk_free_rate := 0 },
                  generation_interval_minutes := 60,
                  evaluation_period_days := 30,
                  survival_rate := 2 } = false
  ∧ mkSettings (-1) 2 2 0 60 30 2
      = .ok { trading := { initial_capital := -1, max_drawdown_limit := 2,
                           max_position_size := 2, risk_free_rate := 0 },
              generation_interval_minutes := 60,
              evaluation_period_days := 30,
              survival_rate := 2 } := by
  refine ⟨?_, rfl⟩
  norm_num [rangesValid]

/-- C1 (amended): no numeric-range validation is performed at startup —
construction of the settings succeeds for every assignment of the six
recognized options, range-violating ones included. -/
theorem claim1_no_range_validation (cap dd pos rfr : ℚ) (gim epd : ℤ)
    (sr : ℚ) :
    mkSettings cap dd pos rfr gim epd sr
      = .ok { trading := { initial_capital := cap, max_drawdown_limit := dd,
                           max_position_size := pos, risk_free_rate := rfr },
              generation_interval_minutes := gim,
              evaluation_period_days := epd,
              survival_rate := sr } := rfl

/-- C9 counterexample: evaluating the configuration module does create
and export a module-level global Settings instance named `settings`
(src/configsettings.py line 80), and the meta-controller consumes exactly
that name (src/coremeta_controller.py line 13) — refuting the claim that
no ambient process-wide settings singleton exists. -/
theorem claim9_counterexample :
    evalConfigModule.globalSettings = some defaultSettings
  ∧ "settings" ∈ evalConfigModule.bindings
  ∧ "settings" ∈ controllerConfigImports := by
  refine ⟨rfl, ?_, ?_⟩ <;> simp [evalConfigModule, controllerConfigImports]

/-- C9 (amended): the configuration module creates a module-level global
Settings instance at import time and exports it under the binding
`settings`, which the meta-controller imports and consumes — the ambient
process-wide singleton pattern is present, not absent. -/
theorem claim9_global_singleton_present :
    evalConfigModule.globalSettings.isSome = true
  ∧ evalConfigModule.bindings.contains "settings" = true
  ∧ controllerConfigImports.contains "settings" = true := by
  refine ⟨rfl, ?_, ?_⟩ <;> simp [evalConfigModule, controllerConfigImports]

/-! Section: claim C10. -/

/-- C10: the private-key formatting validator FirebaseConfig.format_private_key
is idempotent — applying it twice equals applying it once — and is the
identity on every value containing no backslash-n escape sequence. -/
theorem claim10_format_private_key_idempotent (v : List Char) :
    format_private_key (format_private_key v) = format_private_key v
  ∧ (containsEscape v = false → format_private_key v = v) := by
  constructor
  · by_cases hc : containsEscape v = true
    · have h1 : format_private_key v = replaceEscapes v := if_pos hc
      rw [h1]
      unfold format_private_key
      rw [if_neg (by simp [containsEscape_replaceEscapes v])]
    · have h1 : format_private_key v = v := if_neg hc
      rw [h1, h1]
  · intro h
    unfold format_private_key
    simp [h]

/-- C10 witness: a concrete escape-free key on which the validator is the
identity. -/
theorem claim10_witness :
    containsEscape ['k', 'e', 'y'] = false
  ∧ format_private_key ['k', 'e', 'y'] = ['k', 'e', 'y'] :=
  ⟨by decide, (claim10_format_private_key_idempotent ['k', 'e', 'y']).2 (by decide)⟩

/-! Section: claims C4, C8. -/

/-- C4: transition(id, new_status) fails with InvalidTransition whenever
the requested status is unreachable from the component's current status
under the section 4.1 state machine, and TERMINATED is absorbing — for a
TERMINATED component every request fails and its status stays TERMINATED. -/
theorem claim4_transition_guard (reg : Registry) (id : Nat)
    (s tgt : ComponentStatus) (h : statusOf reg id = some s) :
    (allowedTransition s tgt = false →
        transition reg id tgt = .error .invalidTransition)
  ∧ (s = .TERMINATED →
        transition reg id tgt = .error .invalidTransition
      ∧ statusOf (applyTransition reg id tgt) id = some .TERMINATED) := by
  constructor
  · intro hna
    simp [transition, h, hna]
  · rintro rfl
    have ht : transition reg id tgt = .error .invalidTransition := by
      simp [transition, h, terminated_no_exit tgt]
    refine ⟨ht, ?_⟩
    unfold applyTransition
    rw [ht]
    exact h

/-- C4 witness: a registry holding one TERMINATED component, on which a
transition request to ACTIVE fails and leaves the status TERMINATED. -/
theorem claim4_witness :
    transition [(1, ComponentStatus.TERMINATED)] 1 ComponentStatus.ACTIVE
        = .error .invalidTransition
  ∧ statusOf
      (applyTransition [(1, ComponentStatus.TERMINATED)] 1
        ComponentStatus.ACTIVE) 1
      = some ComponentStatus.TERMINATED :=
  (claim4_transition_guard [(1, ComponentStatus.TERMINATED)] 1
    ComponentStatus.TERMINATED ComponentStatus.ACTIVE rfl).2 rfl

/-- C8: component status and kind are closed tagged-variant types — every
status is one of the six variants of the section 4.1 state machine and
every kind one of the five of the data model, with exactly six and five
inhabitants respectively. -/
theorem claim8_closed_variant_types :
    (∀ s : ComponentStatus,
        s = .INITIALIZING ∨ s = .ACTIVE ∨ s = .PAUSED ∨ s = .FAILED
      ∨ s = .TERMINATED ∨ s = .EVOLVING)
  ∧ (∀ t : ComponentType,
        t = .GENERATOR ∨ t = .EVALUATOR ∨ t = .DEPLOYER
      ∨ t = .RISK_MANAGER ∨ t = .DATA_FEEDER)
  ∧ Fintype.card ComponentStatus = 6 ∧ Fintype.card ComponentType = 5 := by
  refine ⟨fun s => ?_, fun t => ?_, ?_, ?_⟩
  · cases s <;> simp
  · cases t <;> simp
  · rfl
  · rfl

/-! Section: claims C2, C5, C7. -/

/-- C2: every Allocation Record produced by rebalance, over any
active-component set and any total capital, has sum of allotted fractions
at most 1 and each individual fraction at most max_position_size
(for the spec-valid nonnegative risk parameters). -/
theorem claim2_allocation_invariants (cfg : TradingConfig)
    (comps : List ActiveComponent) (capital : ℚ)
    (hpos : 0 ≤ cfg.max_position_size)
    (hlim : 0 ≤ cfg.max_drawdown_limit) :
    ((rebalance cfg comps capital).map Prod.snd).sum ≤ 1
  ∧ ∀ p ∈ rebalance cfg comps capital, p.2 ≤ cfg.max_position_size := by
  have hb := rebalance_fraction_bounds cfg.max_position_size
    cfg.max_drawdown_limit
    (exposureOf comps
      (List.replicate comps.length
        (min ((comps.length : ℚ)⁻¹) cfg.max_position_size)))
    comps.length hpos hlim
  constructor
  · rw [rebalance_eq_zip_replicate]
    have hlen : (List.replicate comps.length
        (let v := min ((comps.length : ℚ)⁻¹) cfg.max_position_size
         let e := exposureOf comps (List.replicate comps.length v)
         if cfg.max_drawdown_limit < e then
           v * (cfg.max_drawdown_limit / e)
         else v)).length ≤ (comps.map (fun c => c.cid)).length := by
      simp
    rw [List.map_snd_zip _ _ hlen, List.sum_replicate, nsmul_eq_mul]
    exact hb.2.2
  · intro p hp
    rw [rebalance_snd_mem cfg comps capital p hp]
    exact hb.1

/-- C2 witness: the invariants instantiated on two concrete components
under the source's default risk parameters. -/
theorem claim2_witness :
    ((rebalance { initial_capital := 100000, max_drawdown_limit := 1/5,
                  max_position_size := 1/10, risk_free_rate := 1/50 }
        [⟨1, 1/10⟩, ⟨2, 1/20⟩] 100000).map Prod.snd).sum ≤ 1 :=
  (claim2_allocation_invariants
    { initial_capital := 100000, max_drawdown_limit := 1/5,
      max_position_size := 1/10, risk_free_rate := 1/50 }
    [⟨1, 1/10⟩, ⟨2, 1/20⟩] 100000 (by norm_num) (by norm_num)).1

/-- C5: rebalance is idempotent — running the allocator's rebalance step a
second time with an unchanged active-component set and total capital
yields the identical Allocation Record and the identical committed
allocator state. -/
theorem claim5_rebalance_idempotent (cfg : TradingConfig)
    (st : AllocatorState) (comps : List ActiveComponent) (capital : ℚ) :
    (rebalanceStep cfg (rebalanceStep cfg st comps capital).1 comps
        capital).2
      = (rebalanceStep cfg st comps capital).2
  ∧ (rebalanceStep cfg (rebalanceStep cfg st comps capital).1 comps
        capital).1
      = (rebalanceStep cfg st comps capital).1 :=
  ⟨rfl, rfl⟩

/-- C7: the water-filling loop terminates — for every component set the
profile it returns after its at-most-N-pass budget is a fixed point of the
cap-and-redistribute pass — and in the concrete 5-component instance with
max_position_size = 0.15 and capital 100000 every component is allotted
exactly 15000. -/
theorem claim7_waterfill_termination :
    (∀ (cap : ℚ) (comps : List ActiveComponent),
        capPass cap (rebalanceWeights cap comps.length)
          = rebalanceWeights cap comps.length)
  ∧ (∀ p ∈ rebalance { initial_capital := 100000, max_drawdown_limit := 1/5,
                       max_position_size := 3/20, risk_free_rate := 1/50 }
          [⟨1, 0⟩, ⟨2, 0⟩, ⟨3, 0⟩, ⟨4, 0⟩, ⟨5, 0⟩] 100000,
        allottedAmount 100000 p = 15000) := by
  constructor
  · intro cap comps
    rw [rebalanceWeights_eq]
    exact capPass_replicate_le cap _ comps.length (min_le_right _ _)
  · intro p hp
    have hv : min (((5 : Nat) : ℚ)⁻¹) (3/20) = 3/20 := by norm_num
    have hs := rebalance_snd_mem
      { initial_capital := 100000, max_drawdown_limit := 1/5,
        max_position_size := 3/20, risk_free_rate := 1/50 }
      [⟨1, 0⟩, ⟨2, 0⟩, ⟨3, 0⟩, ⟨4, 0⟩, ⟨5, 0⟩] 100000 p hp
    simp only [List.length_cons, List.length_nil] at hs
    rw [hv] at hs
    have he : exposureOf [⟨1, 0⟩, ⟨2, 0⟩, ⟨3, 0⟩, ⟨4, 0⟩, ⟨5, 0⟩]
        (List.replicate (0 + 1 + 1 + 1 + 1 + 1) ((3 : ℚ)/20)) = 0 := by
      simp [exposureOf, List.replicate]
    rw [he] at hs
    rw [if_neg (by norm_num)] at hs
    unfold allottedAmount
    rw [hs]
    norm_num

/-! Section: claims C3, C6. -/

/-- C3: whenever at least one component completed its evaluation window,
selection leaves at least one survivor; and when the survival fraction
rounds to zero survivors the single best-ranked performer is retained. -/
theorem claim3_survivors_at_least_one (rate : ℚ) (gen : Nat)
    (comps : List EvalComp) (h : 1 ≤ comps.length) :
    1 ≤ (selectStep rate gen comps).1.length
  ∧ (2 ≤ comps.length → (⌈rate * (comps.length : ℚ)⌉).toNat = 0 →
      (selectStep rate gen comps).1 = (rankComps comps).take 1) := by
  constructor
  · unfold selectStep
    split
    · simpa using h
    · rename_i hge
      push_neg at hge
      have hr : (rankComps comps).length = comps.length :=
        List.length_insertionSort rankBefore comps
      simp only [List.length_take, hr]
      have h1 : 1 ≤ numSurvivors rate comps.length := le_max_left 1 _
      omega
  · intro h2 hz
    unfold selectStep
    rw [if_neg (by omega)]
    simp [numSurvivors, hz]

/-- C3 witness: two completed components with survival_rate = 0, where the
fraction rounds to zero survivors and exactly the best-ranked performer is
retained. -/
theorem claim3_witness :
    1 ≤ (selectStep 0 0 [⟨1, 0, 0⟩, ⟨2, 0, 0⟩]).1.length
  ∧ (selectStep 0 0 [⟨1, 0, 0⟩, ⟨2, 0, 0⟩]).1
      = (rankComps [⟨1, 0, 0⟩, ⟨2, 0, 0⟩]).take 1 :=
  ⟨(claim3_survivors_at_least_one 0 0 [⟨1, 0, 0⟩, ⟨2, 0, 0⟩] (by simp)).1,
   (claim3_survivors_at_least_one 0 0 [⟨1, 0, 0⟩, ⟨2, 0, 0⟩] (by simp)).2
     (by simp) (by norm_num)⟩

/-- C6: with exactly 10 ranked components and survival_rate = 0.2,
selection retains exactly 2 survivors, the remaining 8 are culled, and
each culled slot yields a replacement generator component seeded with the
next generation number. -/
theorem claim6_generation_selection (gen : Nat) (comps : List EvalComp)
    (h : comps.length = 10) :
    (selectStep (1/5) gen comps).1.length = 2
  ∧ (selectStep (1/5) gen comps).2.1.length = 8
  ∧ (selectStep (1/5) gen comps).2.2.length = 8
  ∧ ∀ r ∈ (selectStep (1/5) gen comps).2.2,
      r.kind = ComponentType.GENERATOR ∧ r.generation = gen + 1 := by
  have hns : numSurvivors (1/5) 10 = 2 := by
    unfold numSurvivors
    norm_num
    rfl
  have hr : (rankComps comps).length = 10 := by
    rw [rankComps, List.length_insertionSort, h]
  unfold selectStep
  rw [h, hns, if_neg (by omega)]
  refine ⟨?_, ?_, ?_, ?_⟩
  · simp [List.length_take, hr]
  · simp [List.length_drop, hr]
  · simp [List.length_drop, hr]
  · intro r hrm
    rcases List.mem_map.mp hrm with ⟨x, _, rfl⟩
    exact ⟨rfl, rfl⟩

/-- C6 witness: a concrete population of 10 completed components under
survival_rate = 0.2, with 2 survivors and 8 culled-and-replaced slots. -/
theorem claim6_witness :
    (selectStep (1/5) 3
        [⟨0, 9, 0⟩, ⟨1, 8, 0⟩, ⟨2, 7, 0⟩, ⟨3, 6, 0⟩, ⟨4, 5, 0⟩,
         ⟨5, 4, 0⟩, ⟨6, 3, 0⟩, ⟨7, 2, 0⟩, ⟨8, 1, 0⟩, ⟨9, 0, 0⟩]).1.length = 2
  ∧ (selectStep (1/5) 3
        [⟨0, 9, 0⟩, ⟨1, 8, 0⟩, ⟨2, 7, 0⟩, ⟨3, 6, 0⟩, ⟨4, 5, 0⟩,
         ⟨5, 4, 0⟩, ⟨6, 3, 0⟩, ⟨7, 2, 0⟩, ⟨8, 1, 0⟩, ⟨9, 0, 0⟩]).2.2.length
      = 8 :=
  ⟨(claim6_generation_selection 3
      [⟨0, 9, 0⟩, ⟨1, 8, 0⟩, ⟨2, 7, 0⟩, ⟨3, 6, 0⟩, ⟨4, 5, 0⟩,
       ⟨5, 4, 0⟩, ⟨6, 3, 0⟩, ⟨7, 2, 0⟩, ⟨8, 1, 0⟩, ⟨9, 0, 0⟩] rfl).1,
   (claim6_generation_selection 3
      [⟨0, 9, 0⟩, ⟨1, 8, 0⟩, ⟨2, 7, 0⟩, ⟨3, 6, 0⟩, ⟨4, 5, 0⟩,
       ⟨5, 4, 0⟩, ⟨6, 3, 0⟩, ⟨7, 2, 0⟩, ⟨8, 1, 0⟩, ⟨9, 0, 0⟩] rfl).2.2.1⟩

end TradingEcosystem
